import Mathlib

/-!
Shallow embedding of the SmartBFT-Go consensus library core
(internal/bft/util.go, internal/bft/controller.go, pkg/consensus/consensus.go)
and proofs about it.

Machine integers (uint64, int, time.Duration) are modelled as Nat; durations
are in nanoseconds. Go slice indexing that would panic out of bounds is
modelled with a default value, and theorems carry the in-bounds hypotheses.
Side effects (logging, channel sends, network sends) are modelled as explicit
returned action lists; fields of wire messages that the embedded functions
never read (proposal payloads, signatures) are omitted.
-/

namespace SmartBFT

/-- Wire message envelope: a tagged union of exactly one protocol variant
(protobuf oneof in smartbftprotos). Payload fields not read by the embedded
code (proposal bytes, signatures, reasons) are omitted. -/
inductive Message where
  | prePrepare (view seq : Nat)
  | prepare (view seq : Nat) (digest : List Nat)
  | commit (view seq : Nat) (digest : List Nat)
  | viewChange (nextView : Nat)
  | viewData (nextView : Nat)
  | newView (view : Nat)
  | heartBeat (view seq : Nat)
  | heartBeatResponse (view seq : Nat)
  | stateTransferRequest
  | stateTransferResponse (viewId seq : Nat)
deriving DecidableEq

/-- Accessor corresponding to Go's m.GetPrePrepare(): the (View, Seq) pair when
the envelope holds a PrePrepare, nil (none) otherwise. -/
def Message.getPrePrepare : Message → Option (Nat × Nat)
  | .prePrepare v s => some (v, s)
  | _ => none

/-- Accessor corresponding to Go's m.GetPrepare(). -/
def Message.getPrepare : Message → Option (Nat × Nat × List Nat)
  | .prepare v s d => some (v, s, d)
  | _ => none

/-- Accessor corresponding to Go's m.GetCommit(). -/
def Message.getCommit : Message → Option (Nat × Nat × List Nat)
  | .commit v s d => some (v, s, d)
  | _ => none

/-- math.MaxUint64, the sentinel returned by viewNumber / proposalSequence for
non view-phase messages. -/
def MaxUint64 : Nat := 2 ^ 64 - 1

/-- util.go viewNumber: checks PrePrepare, then Prepare, then Commit, and
returns the variant's View field; MaxUint64 if none of the three is present. -/
def viewNumber (m : Message) : Nat :=
  match m.getPrePrepare with
  | some pp => pp.1
  | none =>
    match m.getPrepare with
    | some prp => prp.1
    | none =>
      match m.getCommit with
      | some cmt => cmt.1
      | none => MaxUint64

/-- util.go proposalSequence: same cascade as viewNumber but returns the Seq
field. -/
def proposalSequence (m : Message) : Nat :=
  match m.getPrePrepare with
  | some pp => pp.2
  | none =>
    match m.getPrepare with
    | some prp => prp.2.1
    | none =>
      match m.getCommit with
      | some cmt => cmt.2.1
      | none => MaxUint64

/-- util.go getLeaderID: sorts the node identities ascending (sort.Slice with
the < comparator) and returns the element at index view % N. Go would panic
when view % N is out of range; modelled with getD, theorems assume
N = nodes.length and 0 < N. -/
def getLeaderID (view : Nat) (N : Nat) (nodes : List Nat) : Nat :=
  (nodes.insertionSort (· ≤ ·)).getD (view % N) 0

/-- util.go computeQuorum: F = (N-1)/3 (Go int division) and
Q = ceil((N+F+1)/2). Go computes the ceiling with float64 arithmetic, which is
exact for every cluster size below 2^52; modelled as the exact natural-number
ceiling (a+1)/2 of a/2. Returned in source order (Q, F). -/
def computeQuorum (N : Nat) : Nat × Nat :=
  let F := (N - 1) / 3
  let Q := (N + F + 1 + 1) / 2
  (Q, F)

/-- Request payloads are opaque byte strings. -/
abbrev Request := List Nat

/-- Request fingerprint (ClientID, ID) produced by the RequestInspector. -/
abbrev RequestInfo := Nat × Nat

/-- util.go vote: a message together with its sender. -/
structure vote where
  message : Message
  sender : Nat
deriving DecidableEq

/-- util.go voteSet: the votes channel is modelled as the list of votes sent
into it, in order; the voted map as the list of its keys. The validVote
predicate is configurable. -/
structure voteSet where
  validVote : Nat → Message → Bool
  voted : List Nat
  votes : List vote

/-- util.go voteSet.clear: drains the votes channel and resets the voted map
(the capacity argument n only sizes the fresh channel and map). -/
def voteSet.clear (vs : voteSet) : voteSet :=
  { vs with voted := [], votes := [] }

/-- util.go voteSet.registerVote: drops invalid votes, drops double votes, and
otherwise records the voter and sends the vote into the channel. -/
def voteSet.registerVote (vs : voteSet) (voter : Nat) (message : Message) : voteSet :=
  if vs.validVote voter message = false then vs
  else if voter ∈ vs.voted then vs
  else { vs with
          voted := voter :: vs.voted,
          votes := vs.votes ++ [{ message := message, sender := voter }] }

/-- Folds a sequence of (voter, message) events through registerVote. -/
def runVotes (events : List (Nat × Message)) (vs : voteSet) : voteSet :=
  events.foldl (fun s e => s.registerVote e.1 e.2) vs

/-- controller.go View (the fields the Controller writes when starting one;
vote sets and collaborator handles are omitted). -/
structure View where
  N : Nat
  LeaderID : Nat
  SelfID : Nat
  Quorum : Nat
  Number : Nat
  ProposalSequence : Nat
deriving DecidableEq

/-- controller.go Controller: the state read and written by the embedded
methods. Collaborator interfaces (pool, batcher, comm, signer, ...) are passed
explicitly to the methods that use them; channels and locks are elided, state
transitions are modelled as pure functions on this record. -/
structure Controller where
  ID : Nat
  N : Nat
  quorum : Nat
  currViewNumber : Nat
  currView : View
deriving DecidableEq

/-- controller.go Controller.getCurrentViewNumber (lock elided). -/
def Controller.getCurrentViewNumber (c : Controller) : Nat :=
  c.currViewNumber

/-- controller.go Controller.setCurrentViewNumber (lock elided). -/
def Controller.setCurrentViewNumber (c : Controller) (viewNumber : Nat) : Controller :=
  { c with currViewNumber := viewNumber }

/-- controller.go Controller.leaderID: the current view number modulo N.
Note: it does not consult the membership list at all (a TODO in the source
defers using the identifier order). -/
def Controller.leaderID (c : Controller) : Nat :=
  c.getCurrentViewNumber % c.N

/-- controller.go Controller.iAmTheLeader: whether the leader is this node,
together with the leader's identifier. -/
def Controller.iAmTheLeader (c : Controller) : Bool × Nat :=
  let leader := c.leaderID
  (leader == c.ID, leader)

/-- controller.go Controller.computeQuorum (method form): same formula as the
package-level computeQuorum in util.go, returning only Q. -/
def Controller.computeQuorum (c : Controller) : Nat :=
  let f := (c.N - 1) / 3
  (c.N + f + 1 + 1) / 2

/-- controller.go Controller.startView: builds a View from the controller's
current state and installs it as currView (collaborator handles and WAL
elided). -/
def Controller.startView (c : Controller) (proposalSequence : Nat) : Controller :=
  let view : View :=
    { N := c.N
      LeaderID := c.leaderID
      SelfID := c.ID
      Quorum := c.quorum
      Number := c.getCurrentViewNumber
      ProposalSequence := proposalSequence }
  { c with currView := view }

/-- controller.go Controller.changeView: returns early when the current view
number already exceeds the requested one; otherwise aborts the old view, sets
the new number and starts a new view. The Bool records whether a new view was
started (leader-token plumbing and the viewEnd future are elided). -/
def Controller.changeView (c : Controller) (newViewNumber newProposalSequence : Nat) :
    Controller × Bool :=
  if c.getCurrentViewNumber > newViewNumber then (c, false)
  else
    let c₁ := c.setCurrentViewNumber newViewNumber
    (c₁.startView newProposalSequence, true)

/-- Destination a message can be dispatched to by the controller. -/
inductive Dispatch where
  | toCurrentView (sender : Nat) (m : Message)
  | toViewChanger (sender : Nat) (m : Message)
  | toHeartbeatMonitor (sender : Nat) (m : Message)
deriving DecidableEq

/-- Modelled from the spec: IsViewMessage is called by
Controller.ProcessMessages but its defining file is not under src/. The spec
calls view-phase messages exactly those carrying a PrePrepare, a Prepare or a
Commit. -/
def IsViewMessage (m : Message) : Bool :=
  m.getPrePrepare.isSome || m.getPrepare.isSome || m.getCommit.isSome

/-- controller.go Controller.ProcessMessages: view-phase messages are handed
to the current View's HandleMessage; every other message is only logged (a
TODO in the source notes that view-change and transaction messages are not
yet handled). The returned list records which components receive the
message. -/
def Controller.ProcessMessages (c : Controller) (sender : Nat) (m : Message) : List Dispatch :=
  if IsViewMessage m then [Dispatch.toCurrentView sender m] else []

/-- Routing rule as worded by the spec, for comparison with the
implementation: view-phase messages go to the current View; view-change,
heartbeat and state-transfer messages go to the ViewChanger and
HeartbeatMonitor components. -/
def specProcessMessages (sender : Nat) (m : Message) : List Dispatch :=
  if IsViewMessage m then [Dispatch.toCurrentView sender m]
  else
    match m with
    | .viewChange _ => [Dispatch.toViewChanger sender m]
    | .viewData _ => [Dispatch.toViewChanger sender m]
    | .newView _ => [Dispatch.toViewChanger sender m]
    | .heartBeat _ _ => [Dispatch.toHeartbeatMonitor sender m]
    | .heartBeatResponse _ _ => [Dispatch.toHeartbeatMonitor sender m]
    | .stateTransferRequest => [Dispatch.toViewChanger sender m]
    | .stateTransferResponse _ _ => [Dispatch.toViewChanger sender m]
    | _ => []

/-- Externally visible effect of a request-pool timeout callback. -/
inductive TimeoutAction where
  | sendTransaction (target : Nat) (request : Request)
  | complain
deriving DecidableEq

/-- controller.go Controller.OnRequestTimeout: if this node is the leader only
a warning is logged; otherwise the request is forwarded to the leader through
Comm.SendTransaction. -/
def Controller.OnRequestTimeout (c : Controller) (request : Request) (info : RequestInfo) :
    List TimeoutAction :=
  let r := c.iAmTheLeader
  if r.1 then [] else [TimeoutAction.sendTransaction r.2 request]

/-- controller.go Controller.OnLeaderFwdRequestTimeout: if this node is the
leader only a warning is logged; otherwise FailureDetector.Complain() is
invoked. -/
def Controller.OnLeaderFwdRequestTimeout (c : Controller) (request : Request)
    (info : RequestInfo) : List TimeoutAction :=
  let r := c.iAmTheLeader
  if r.1 then [] else [TimeoutAction.complain]

/-- Typed errors RequestPool.Submit can return (pool full, duplicate). -/
inductive SubmitError where
  | poolFull
  | duplicateRequest
deriving DecidableEq

/-- controller.go Controller.SubmitRequest: asks the inspector for the request
id (used only for logging), forwards the payload to RequestPool.Submit, and
returns the pool's error verbatim (nil on success). The pool is an external
collaborator, passed as its Submit function on an explicit pool state; the
result carries the (unchanged) controller, the pool state after Submit, and
the returned error. -/
def Controller.SubmitRequest (c : Controller)
    (submit : List Request → Request → List Request × Option SubmitError)
    (pool : List Request) (request : Request) :
    Controller × List Request × Option SubmitError :=
  let r := submit pool request
  match r.2 with
  | some err => (c, r.1, some err)
  | none => (c, r.1, none)

/-- internal/bft PoolOptions (durations in nanoseconds). -/
structure PoolOptions where
  QueueSize : Nat
  RequestTimeout : Nat
  LeaderFwdTimeout : Nat
  AutoRemoveTimeout : Nat
deriving DecidableEq

/-- consensus.go DefaultRequestPoolSize. -/
def DefaultRequestPoolSize : Nat := 200

/-- consensus.go Consensus.Start, pool-options construction. Modelled from the
spec, in part: the constant DefaultRequestTimeout lives in the request-pool
file, which is not under src/, so it is taken as a parameter; the spec records
only the ratios Default/100, Default/5, Default. Go divides time.Duration
(int64 nanoseconds) with integer division, modelled by Nat division. -/
def consensusStartPoolOptions (DefaultRequestTimeout : Nat) : PoolOptions :=
  { QueueSize := DefaultRequestPoolSize
    RequestTimeout := DefaultRequestTimeout / 100
    LeaderFwdTimeout := DefaultRequestTimeout / 5
    AutoRemoveTimeout := DefaultRequestTimeout }

/-! Concrete values used by counterexamples and witnesses. -/

/-- An initial view record. -/
def view0 : View :=
  { N := 1, LeaderID := 0, SelfID := 0, Quorum := 1, Number := 0, ProposalSequence := 0 }

/-- A controller that is currently the leader (ID 0, view 0). -/
def controller0 : Controller :=
  { ID := 0, N := 1, quorum := 1, currViewNumber := 0, currView := view0 }

/-- A controller of a 4-node cluster that is not the leader of view 0. -/
def controller1 : Controller :=
  { ID := 1, N := 4, quorum := 3, currViewNumber := 0, currView := view0 }

/-- A controller of a 4-node cluster currently at view 5. -/
def controller5 : Controller :=
  { ID := 1, N := 4, quorum := 3, currViewNumber := 5, currView := view0 }

/-- C1 (counterexample): with membership [5] and N = 1 the sorted-list rule
gives node 5 as leader of view 0, but Controller.leaderID computes
0 mod 1 = 0: the Controller's computation does not agree with
sort(nodes)[v mod N] for every membership. -/
theorem controller_leaderID_differs_from_sorted_rule :
    getLeaderID controller0.currViewNumber controller0.N [5] = 5 ∧
    controller0.leaderID = 0 ∧
    ¬ controller0.leaderID
        = getLeaderID controller0.currViewNumber controller0.N [5] := by
  decide

/-- C1 (amended): getLeaderID returns sort(nodes)[v mod N]; the Controller's
leaderID returns v mod N, which agrees with that rule whenever the membership
is a permutation of 0, ..., N-1 (the counterexample shows agreement fails for
other memberships). -/
theorem getLeaderID_sorted_rule_and_controller_agreement (c : Controller)
    (nodes : List Nat) (hpos : 0 < c.N)
    (hperm : List.Perm nodes (List.range c.N)) :
    getLeaderID c.currViewNumber c.N nodes
      = (nodes.insertionSort (· ≤ ·)).getD (c.currViewNumber % c.N) 0 ∧
    getLeaderID c.currViewNumber c.N nodes = c.leaderID := by
  refine ⟨rfl, ?_⟩
  have hsorted : nodes.insertionSort (· ≤ ·) = List.range c.N :=
    List.eq_of_perm_of_sorted ((List.perm_insertionSort _ nodes).trans hperm)
      (List.sorted_insertionSort _ nodes) ((List.sorted_lt_range _).le_of_lt)
  have hmod : c.currViewNumber % c.N < c.N := Nat.mod_lt _ hpos
  unfold getLeaderID Controller.leaderID Controller.getCurrentViewNumber
  rw [hsorted, List.getD_eq_getElem?_getD, List.getElem?_range hmod]
  rfl

/-- C1 (witness): concrete agreement at view 5, N = 4,
membership [2, 0, 3, 1]. -/
theorem getLeaderID_sorted_rule_and_controller_agreement_witness :
    0 < controller5.N ∧
    List.Perm [2, 0, 3, 1] (List.range controller5.N) ∧
    getLeaderID controller5.currViewNumber controller5.N [2, 0, 3, 1]
      = controller5.leaderID :=
  ⟨by decide, by decide,
    (getLeaderID_sorted_rule_and_controller_agreement controller5 [2, 0, 3, 1]
      (by decide) (by decide)).2⟩

/-- C2: computeQuorum returns F = (N-1)/3 and the exact ceiling
Q = ceil((N+F+1)/2) (characterised by N+F+1 <= 2Q <= N+F+2, hence
2Q - N >= F+1), and any two subsets of size Q out of N nodes intersect in at
least F+1 nodes. -/
theorem computeQuorum_correct (N : Nat) (hN : 1 ≤ N) :
    (computeQuorum N).2 = (N - 1) / 3 ∧
    (computeQuorum N).1 = (N + (computeQuorum N).2 + 1 + 1) / 2 ∧
    N + (computeQuorum N).2 + 1 ≤ 2 * (computeQuorum N).1 ∧
    2 * (computeQuorum N).1 ≤ N + (computeQuorum N).2 + 2 ∧
    ∀ A B : Finset (Fin N),
      A.card = (computeQuorum N).1 → B.card = (computeQuorum N).1 →
      (computeQuorum N).2 + 1 ≤ (A ∩ B).card := by
  have hF : (computeQuorum N).2 = (N - 1) / 3 := rfl
  have hQ : (computeQuorum N).1 = (N + (N - 1) / 3 + 1 + 1) / 2 := rfl
  refine ⟨hF, by rw [hQ, hF], ?_, ?_, ?_⟩
  · rw [hQ, hF]; omega
  · rw [hQ, hF]; omega
  · intro A B hA hB
    have hcard : (A ∪ B).card + (A ∩ B).card = A.card + B.card :=
      Finset.card_union_add_card_inter A B
    have hU : (A ∪ B).card ≤ N := by simpa using Finset.card_le_univ (A ∪ B)
    rw [hA, hB, hQ] at hcard
    rw [hF]
    omega

/-- C2 (witness): N = 4 gives (Q, F) = (3, 1) and the quorums {0,1,2} and
{1,2,3} intersect in at least 2 nodes. -/
theorem computeQuorum_correct_witness :
    1 ≤ 4 ∧
    ({0, 1, 2} : Finset (Fin 4)).card = (computeQuorum 4).1 ∧
    ({1, 2, 3} : Finset (Fin 4)).card = (computeQuorum 4).1 ∧
    (computeQuorum 4).2 + 1 ≤ (({0, 1, 2} : Finset (Fin 4)) ∩ {1, 2, 3}).card :=
  ⟨by decide, by decide, by decide,
    (computeQuorum_correct 4 (by decide)).2.2.2.2 {0, 1, 2} {1, 2, 3}
      (by decide) (by decide)⟩

/-- Helper: registerVote preserves the invariant that the votes channel holds
at most one vote per sender and every sender in it is recorded in voted. -/
theorem registerVote_inv (vs : voteSet) (voter : Nat) (m : Message)
    (h1 : (vs.votes.map vote.sender).Nodup)
    (h2 : ∀ s ∈ vs.votes.map vote.sender, s ∈ vs.voted) :
    ((vs.registerVote voter m).votes.map vote.sender).Nodup ∧
    ∀ s ∈ (vs.registerVote voter m).votes.map vote.sender,
      s ∈ (vs.registerVote voter m).voted := by
  unfold voteSet.registerVote
  by_cases hv : vs.validVote voter m = false
  · rw [if_pos hv]; exact ⟨h1, h2⟩
  · rw [if_neg hv]
    by_cases hm : voter ∈ vs.voted
    · rw [if_pos hm]; exact ⟨h1, h2⟩
    · rw [if_neg hm]
      constructor
      · simp only [List.map_append, List.map_cons, List.map_nil]
        rw [List.nodup_append]
        refine ⟨h1, List.nodup_singleton _, ?_⟩
        intro a ha hb
        have : a = voter := by simpa using hb
        exact hm (this ▸ h2 a ha)
      · intro s hs
        simp only [List.map_append, List.map_cons, List.map_nil,
          List.mem_append, List.mem_singleton] at hs
        rcases hs with hs | hs
        · exact List.mem_cons_of_mem _ (h2 s hs)
        · exact hs ▸ List.mem_cons_self _ _

/-- Helper: the invariant is preserved by any sequence of registerVote
calls. -/
theorem runVotes_inv (events : List (Nat × Message)) (vs : voteSet)
    (h1 : (vs.votes.map vote.sender).Nodup)
    (h2 : ∀ s ∈ vs.votes.map vote.sender, s ∈ vs.voted) :
    ((runVotes events vs).votes.map vote.sender).Nodup ∧
    ∀ s ∈ (runVotes events vs).votes.map vote.sender,
      s ∈ (runVotes events vs).voted := by
  induction events generalizing vs with
  | nil => exact ⟨h1, h2⟩
  | cons e es ih =>
      exact ih (vs.registerVote e.1 e.2)
        (registerVote_inv vs e.1 e.2 h1 h2).1
        (registerVote_inv vs e.1 e.2 h1 h2).2

/-- C3: a message failing validVote leaves the vote set untouched, a second
vote from a voter that already voted leaves the vote set untouched, and any
sequence of registerVote calls starting from a cleared vote set puts at most
one vote per voter into the votes channel. -/
theorem registerVote_one_vote_per_voter (vs : voteSet) (voter : Nat)
    (m : Message) (events : List (Nat × Message)) :
    (vs.validVote voter m = false → vs.registerVote voter m = vs) ∧
    (voter ∈ vs.voted → vs.registerVote voter m = vs) ∧
    ((runVotes events vs.clear).votes.map vote.sender).Nodup := by
  refine ⟨?_, ?_, ?_⟩
  · intro h
    unfold voteSet.registerVote
    rw [if_pos h]
  · intro h
    unfold voteSet.registerVote
    by_cases hv : vs.validVote voter m = false
    · rw [if_pos hv]
    · rw [if_neg hv, if_pos h]
  · exact (runVotes_inv events vs.clear (by simp [voteSet.clear])
      (by simp [voteSet.clear])).1

/-- A vote set that admits only voter 1 and already counted voter 2. -/
def voteSetW : voteSet :=
  { validVote := fun v _ => v == 1, voted := [2], votes := [] }

/-- A sample vote sequence with an invalid voter, a double vote and a valid
vote. -/
def eventsW : List (Nat × Message) :=
  [(1, Message.prepare 0 0 []), (1, Message.prepare 0 0 [7]),
   (2, Message.prepare 0 0 []), (3, Message.prepare 0 0 [])]

/-- C3 (witness): the invalid voter 3 and the already-counted voter 2 leave
the concrete vote set unchanged, and running the sample sequence from a
cleared set yields distinct senders. -/
theorem registerVote_one_vote_per_voter_witness :
    voteSetW.validVote 3 (Message.prepare 0 0 []) = false ∧
    voteSetW.registerVote 3 (Message.prepare 0 0 []) = voteSetW ∧
    (2 : Nat) ∈ voteSetW.voted ∧
    voteSetW.registerVote 2 (Message.prepare 0 0 []) = voteSetW ∧
    ((runVotes eventsW voteSetW.clear).votes.map vote.sender).Nodup :=
  ⟨by decide,
    (registerVote_one_vote_per_voter voteSetW 3 (Message.prepare 0 0 []) eventsW).1
      (by decide),
    by decide,
    (registerVote_one_vote_per_voter voteSetW 2 (Message.prepare 0 0 []) eventsW).2.1
      (by decide),
    (registerVote_one_vote_per_voter voteSetW 2 (Message.prepare 0 0 []) eventsW).2.2⟩

/-- C4: changeView never decreases the current view number: a stale request
(newViewNumber below the current view) leaves the controller unchanged and
starts no view, otherwise the current view number becomes newViewNumber and a
new view is started. -/
theorem changeView_monotone (c : Controller)
    (newViewNumber newProposalSequence : Nat) :
    c.currViewNumber
      ≤ (c.changeView newViewNumber newProposalSequence).1.currViewNumber ∧
    (newViewNumber < c.currViewNumber →
      (c.changeView newViewNumber newProposalSequence).1 = c ∧
      (c.changeView newViewNumber newProposalSequence).2 = false) ∧
    (c.currViewNumber ≤ newViewNumber →
      (c.changeView newViewNumber newProposalSequence).1.currViewNumber
          = newViewNumber ∧
      (c.changeView newViewNumber newProposalSequence).2 = true) := by
  unfold Controller.changeView Controller.getCurrentViewNumber
    Controller.setCurrentViewNumber Controller.startView
  by_cases h : c.currViewNumber > newViewNumber
  · rw [if_pos h]
    exact ⟨Nat.le_refl _, fun _ => ⟨rfl, rfl⟩, fun hle => absurd h (by omega)⟩
  · rw [if_neg h]
    exact ⟨by simp; omega, fun hlt => absurd hlt (by omega), fun _ => ⟨rfl, rfl⟩⟩

/-- C4 (witness): at view 5, a change to view 3 is refused and a change to
view 7 is installed. -/
theorem changeView_monotone_witness :
    3 < controller5.currViewNumber ∧
    (controller5.changeView 3 9).1 = controller5 ∧
    (controller5.changeView 3 9).2 = false ∧
    controller5.currViewNumber ≤ 7 ∧
    (controller5.changeView 7 9).1.currViewNumber = 7 ∧
    (controller5.changeView 7 9).2 = true := by
  refine ⟨by decide, ?_, ?_, by decide, ?_, ?_⟩
  · exact ((changeView_monotone controller5 3 9).2.1 (by decide)).1
  · exact ((changeView_monotone controller5 3 9).2.1 (by decide)).2
  · exact ((changeView_monotone controller5 7 9).2.2 (by decide)).1
  · exact ((changeView_monotone controller5 7 9).2.2 (by decide)).2

/-- C5 (counterexample): a heartbeat and a view-change message are dispatched
to no component by ProcessMessages (the source only logs them, with a TODO),
while the spec's routing sends them to the HeartbeatMonitor and ViewChanger
respectively. -/
theorem ProcessMessages_drops_non_view_messages :
    controller0.ProcessMessages 3 (Message.heartBeat 0 0) = [] ∧
    specProcessMessages 3 (Message.heartBeat 0 0)
      = [Dispatch.toHeartbeatMonitor 3 (Message.heartBeat 0 0)] ∧
    controller0.ProcessMessages 3 (Message.viewChange 1) = [] ∧
    specProcessMessages 3 (Message.viewChange 1)
      = [Dispatch.toViewChanger 3 (Message.viewChange 1)] := by
  decide

/-- C5 (amended): ProcessMessages hands a view-phase message (one carrying a
PrePrepare, Prepare or Commit) to the current View's HandleMessage, and
dispatches every other message (view-change, heartbeat, state-transfer) to no
component. -/
theorem ProcessMessages_routes_only_view_messages (c : Controller)
    (sender : Nat) (m : Message) :
    (IsViewMessage m = true →
      c.ProcessMessages sender m = [Dispatch.toCurrentView sender m]) ∧
    (IsViewMessage m = false → c.ProcessMessages sender m = []) := by
  constructor
  · intro h; simp [Controller.ProcessMessages, h]
  · intro h; simp [Controller.ProcessMessages, h]

/-- C5 (witness): a Prepare goes to the current view, a heartbeat response
goes nowhere. -/
theorem ProcessMessages_routes_only_view_messages_witness :
    IsViewMessage (Message.prepare 0 0 []) = true ∧
    controller0.ProcessMessages 7 (Message.prepare 0 0 [])
      = [Dispatch.toCurrentView 7 (Message.prepare 0 0 [])] ∧
    IsViewMessage (Message.heartBeatResponse 0 0) = false ∧
    controller0.ProcessMessages 7 (Message.heartBeatResponse 0 0) = [] :=
  ⟨by decide,
    (ProcessMessages_routes_only_view_messages controller0 7
      (Message.prepare 0 0 [])).1 (by decide),
    by decide,
    (ProcessMessages_routes_only_view_messages controller0 7
      (Message.heartBeatResponse 0 0)).2 (by decide)⟩

/-- C6 (counterexample): on the node that is itself the current leader,
OnRequestTimeout forwards nothing and OnLeaderFwdRequestTimeout raises no
complaint, contradicting the unconditional reading of the claim. -/
theorem onTimeout_leader_does_nothing :
    controller0.iAmTheLeader.1 = true ∧
    controller0.OnRequestTimeout [1] (0, 1) = [] ∧
    controller0.OnLeaderFwdRequestTimeout [1] (0, 1) = [] := by
  decide

/-- C6 (amended): unless this node is itself the current leader (in which case
both handlers only log and return), OnRequestTimeout forwards the request to
the current leader via Comm.SendTransaction and OnLeaderFwdRequestTimeout
invokes FailureDetector.Complain(). -/
theorem onTimeout_forward_then_complain (c : Controller) (request : Request)
    (info : RequestInfo) :
    (c.iAmTheLeader.1 = false →
      c.OnRequestTimeout request info
          = [TimeoutAction.sendTransaction c.leaderID request] ∧
      c.OnLeaderFwdRequestTimeout request info = [TimeoutAction.complain]) ∧
    (c.iAmTheLeader.1 = true →
      c.OnRequestTimeout request info = [] ∧
      c.OnLeaderFwdRequestTimeout request info = []) := by
  have h2 : c.iAmTheLeader.2 = c.leaderID := rfl
  constructor
  · intro h
    constructor <;>
      simp [Controller.OnRequestTimeout, Controller.OnLeaderFwdRequestTimeout,
        h, h2]
  · intro h
    constructor <;>
      simp [Controller.OnRequestTimeout, Controller.OnLeaderFwdRequestTimeout, h]

/-- C6 (witness): the non-leader node 1 of a 4-node cluster forwards to leader
0 and then complains; the leader node does neither. -/
theorem onTimeout_forward_then_complain_witness :
    controller1.iAmTheLeader.1 = false ∧
    controller1.OnRequestTimeout [9] (0, 9)
      = [TimeoutAction.sendTransaction controller1.leaderID [9]] ∧
    controller1.OnLeaderFwdRequestTimeout [9] (0, 9)
      = [TimeoutAction.complain] ∧
    controller0.iAmTheLeader.1 = true ∧
    controller0.OnRequestTimeout [9] (0, 9) = [] :=
  ⟨by decide,
    ((onTimeout_forward_then_complain controller1 [9] (0, 9)).1 (by decide)).1,
    ((onTimeout_forward_then_complain controller1 [9] (0, 9)).1 (by decide)).2,
    by decide,
    ((onTimeout_forward_then_complain controller0 [9] (0, 9)).2 (by decide)).1⟩

/-- C7: SubmitRequest returns exactly the error RequestPool.Submit returns
(nil exactly when the pool succeeds), leaves the controller state unchanged,
and changes nothing but what the pool submission itself changed. -/
theorem SubmitRequest_is_pool_submit (c : Controller)
    (submit : List Request → Request → List Request × Option SubmitError)
    (pool : List Request) (request : Request) :
    (c.SubmitRequest submit pool request).2.2 = (submit pool request).2 ∧
    (c.SubmitRequest submit pool request).1 = c ∧
    (c.SubmitRequest submit pool request).2.1 = (submit pool request).1 := by
  unfold Controller.SubmitRequest
  cases h : (submit pool request).2 <;> simp [h]

/-- C8: the pool options built by Consensus.Start satisfy the declared ratios
Default/100, Default/5, Default, and hence (for any default timeout of at
least 5 nanoseconds) RequestTimeout < LeaderFwdTimeout < AutoRemoveTimeout. -/
theorem consensusStart_pool_timeout_ratios (D : Nat) (hD : 5 ≤ D) :
    (consensusStartPoolOptions D).RequestTimeout = D / 100 ∧
    (consensusStartPoolOptions D).LeaderFwdTimeout = D / 5 ∧
    (consensusStartPoolOptions D).AutoRemoveTimeout = D ∧
    (consensusStartPoolOptions D).RequestTimeout
      < (consensusStartPoolOptions D).LeaderFwdTimeout ∧
    (consensusStartPoolOptions D).LeaderFwdTimeout
      < (consensusStartPoolOptions D).AutoRemoveTimeout := by
  refine ⟨rfl, rfl, rfl, ?_, ?_⟩ <;>
    simp only [consensusStartPoolOptions] <;> omega

/-- C8 (witness): concrete evaluation at a 10-second default timeout. -/
theorem consensusStart_pool_timeout_ratios_witness :
    5 ≤ 10000000000 ∧
    (consensusStartPoolOptions 10000000000).RequestTimeout
      < (consensusStartPoolOptions 10000000000).LeaderFwdTimeout ∧
    (consensusStartPoolOptions 10000000000).LeaderFwdTimeout
      < (consensusStartPoolOptions 10000000000).AutoRemoveTimeout :=
  ⟨by decide,
    (consensusStart_pool_timeout_ratios 10000000000 (by decide)).2.2.2.1,
    (consensusStart_pool_timeout_ratios 10000000000 (by decide)).2.2.2.2⟩

/-- C9: viewNumber and proposalSequence return the View and Seq fields of a
PrePrepare, Prepare or Commit, and the sentinel 2^64 - 1 (math.MaxUint64) for
any message carrying none of those three variants; both are total
functions. -/
theorem viewNumber_proposalSequence_spec (m : Message) (v s : Nat)
    (d : List Nat) :
    viewNumber (Message.prePrepare v s) = v ∧
    proposalSequence (Message.prePrepare v s) = s ∧
    viewNumber (Message.prepare v s d) = v ∧
    proposalSequence (Message.prepare v s d) = s ∧
    viewNumber (Message.commit v s d) = v ∧
    proposalSequence (Message.commit v s d) = s ∧
    (m.getPrePrepare = none → m.getPrepare = none → m.getCommit = none →
      viewNumber m = 2 ^ 64 - 1 ∧ proposalSequence m = 2 ^ 64 - 1) := by
  refine ⟨rfl, rfl, rfl, rfl, rfl, rfl, ?_⟩
  intro h1 h2 h3
  unfold viewNumber proposalSequence
  rw [h1, h2, h3]
  exact ⟨rfl, rfl⟩

/-- C9 (witness): a StateTransferRequest carries none of the three view-phase
variants and maps to the sentinel. -/
theorem viewNumber_proposalSequence_spec_witness :
    Message.getPrePrepare Message.stateTransferRequest = none ∧
    Message.getPrepare Message.stateTransferRequest = none ∧
    Message.getCommit Message.stateTransferRequest = none ∧
    (viewNumber Message.stateTransferRequest = 2 ^ 64 - 1 ∧
      proposalSequence Message.stateTransferRequest = 2 ^ 64 - 1) :=
  ⟨rfl, rfl, rfl,
    (viewNumber_proposalSequence_spec Message.stateTransferRequest 3 4
      []).2.2.2.2.2.2 rfl rfl rfl⟩

/-- C10: the Controller's computeQuorum method returns the same quorum size Q
as the package-level computeQuorum of util.go for every cluster size. -/
theorem controller_computeQuorum_eq_util (c : Controller) :
    c.computeQuorum = (computeQuorum c.N).1 :=
  rfl

end SmartBFT
